import Mathlib

/-!
Verification of the StyleMorph orchestration core against its source.

The definitions below are a shallow embedding of the application code:

* `validateCss` embeds `validateCss` from `src/services/geminiService.ts`;
* `AppState` collects the React component state of `App` (`src/types.ts`,
  concatenated app file): `files`, `prompt`, `inputHistory`, `historyIndex`,
  `status`, `statusMessage`, `results`, `error`, `history`, `templates`;
* the handler functions (`addToHistoryStack`, `handleUndo`, `handleRedo`,
  `handleRemoveFile`, `handleFilesSelected`, `handleDeleteTemplate`,
  `handleRenameTemplate`, `saveToHistory`, `processFiles`, ...) embed the
  identically named handlers of the `App` component.

Effects are determinized: `crypto.randomUUID()` and `Date.now()` become
explicit parameters, the asynchronous generation gateway becomes a record of
pure functions returning `Except` (a thrown error is `Except.error msg`),
and `localStorage` persistence is outside the model (every persisted value is
written from the in-memory value that the model does track).  The transient
`isUndoing` ref (set during a 50ms replay window) is passed to the edit
handlers as an explicit boolean argument.
-/

/-- Single-quote character, kept out of string literals. -/
def squote : String := String.singleton '\x27'

/-- Left brace character, kept out of string literals. -/
def lbrace : String := String.singleton '\x7b'

/-- Right brace character, kept out of string literals. -/
def rbrace : String := String.singleton '\x7d'

/-- `"Found extra closing brace '}'."` from `validateCss`. -/
def extraBraceMsg : String :=
  "Found extra closing brace " ++ squote ++ rbrace ++ squote ++ "."

/-- `` `Missing ${openBraces} closing brace(s) '}'.` `` from `validateCss`. -/
def missingBraceMsg (n : Int) : String :=
  "Missing " ++ toString n ++ " closing brace(s) " ++ squote ++ rbrace ++ squote ++ "."

/-- `"Generated CSS is empty."` from `validateCss`. -/
def emptyCssMsg : String := "Generated CSS is empty."

/-- JavaScript `String.prototype.trim`: strip whitespace from both ends.
(Defined structurally over the character list so that it evaluates in the
kernel; Lean's own `String.trim` recurses on byte positions and does not.) -/
def jsTrim (s : String) : String :=
  ⟨((s.data.dropWhile Char.isWhitespace).reverse.dropWhile Char.isWhitespace).reverse⟩

/-- The brace-balance loop of `validateCss`: for each character, `{`
increments and `}` decrements the counter; whenever the counter goes
negative an "extra closing brace" error is recorded and the counter is
reset to `0`.  Returns the accumulated errors and the final counter. -/
def scanBraces : List Char → Int → List String → List String × Int
  | [], openBraces, errors => (errors, openBraces)
  | c :: rest, openBraces, errors =>
    let n1 := if c = '\x7b' then openBraces + 1 else openBraces
    let n2 := if c = '\x7d' then n1 - 1 else n1
    if n2 < 0 then scanBraces rest 0 (errors ++ [extraBraceMsg])
    else scanBraces rest n2 errors

/-- `validateCss` from `src/services/geminiService.ts`: brace scan, then a
"missing N closing braces" error for a positive residual counter, then an
"empty output" error when the trimmed input is empty. -/
def validateCss (css : String) : List String :=
  let scanned := scanBraces css.data 0 []
  let errors :=
    if scanned.2 > 0 then scanned.1 ++ [missingBraceMsg scanned.2] else scanned.1
  if (jsTrim css).length = 0 then errors ++ [emptyCssMsg] else errors

/-- Test input `"a{b{c}"`. -/
def exMissing : String := "a" ++ lbrace ++ "b" ++ lbrace ++ "c" ++ rbrace

/-- Test input `"a}b{c}}"`. -/
def exUnmatched : String :=
  "a" ++ rbrace ++ "b" ++ lbrace ++ "c" ++ rbrace ++ rbrace

/-- Test input `"a{b}"`. -/
def exBalanced : String := "a" ++ lbrace ++ "b" ++ rbrace

/-- `UploadedFile` from `src/types.ts`. -/
structure UploadedFile where
  id : String
  name : String
  content : String
deriving DecidableEq, Repr

/-- The `type` field of `ProcessedFile` (`'html' | 'css'`). -/
inductive FileType where
  | html
  | css
deriving DecidableEq, Repr

/-- `ProcessedFile` from `src/types.ts`. -/
structure ProcessedFile where
  fileName : String
  content : String
  type : FileType
deriving DecidableEq, Repr

/-- `ProcessingStatus` from `src/types.ts`. -/
inductive ProcessingStatus where
  | IDLE
  | ANALYZING
  | GENERATING_CSS
  | REWRITING_HTML
  | COMPLETED
  | ERROR
deriving DecidableEq, Repr

/-- `HistoryItem` from `src/types.ts` (one persisted run record; the
`timestamp` is `Date.now()`, determinized to a parameter). -/
structure HistoryItem where
  id : String
  timestamp : Nat
  prompt : String
  results : List ProcessedFile
deriving DecidableEq, Repr

/-- The `provider` field of `AIModel` (`'google' | 'ollama'`). -/
inductive Provider where
  | google
  | ollama
deriving DecidableEq, Repr

/-- `AIModel` from `src/types.ts`. -/
structure AIModel where
  id : String
  name : String
  provider : Provider
deriving DecidableEq, Repr

/-- `StyleTemplate` from `src/types.ts`.  `isCustom` is optional in the
source (`isCustom?: boolean`); an absent value is falsy, embedded as
`false`. -/
structure StyleTemplate where
  id : String
  name : String
  prompt : String
  likes : Int
  isLiked : Bool
  isCustom : Bool
deriving DecidableEq, Repr

/-- One entry of the `inputHistory` undo/redo stack: a
`{files, prompt}` pair. -/
structure InputSnapshot where
  files : List UploadedFile
  prompt : String
deriving DecidableEq, Repr

/-- The initial snapshot `{files: [], prompt: ''}`. -/
def emptySnapshot : InputSnapshot := ⟨[], ""⟩

/-- The built-in template `t1` from `DEFAULT_TEMPLATES`. -/
def tDark : StyleTemplate :=
  ⟨"t1", "Dark Mode Minimal",
   "Modern dark mode with sleek typography, high contrast, slate background, and subtle blue accents.",
   124, false, false⟩

/-- The built-in template `t2` from `DEFAULT_TEMPLATES`. -/
def tCorporate : StyleTemplate :=
  ⟨"t2", "Corporate Clean",
   "Professional, trustworthy corporate style with navy blue header, white background, and clean sans-serif fonts.",
   89, false, false⟩

/-- The built-in template `t3` from `DEFAULT_TEMPLATES`. -/
def tNeon : StyleTemplate :=
  ⟨"t3", "Neon Cyberpunk",
   "Futuristic cyberpunk aesthetic with neon pink and cyan text, black background, and glitch effects on hover.",
   256, false, false⟩

/-- The built-in template `t4` from `DEFAULT_TEMPLATES`. -/
def tBrutalist : StyleTemplate :=
  ⟨"t4", "Playful & Brutalist",
   "Bold neo-brutalism with thick black borders, vivid pastel colors, large typography, and offset shadows.",
   54, false, false⟩

/-- `DEFAULT_TEMPLATES` from the app component: four built-in templates,
none user-authored (`isCustom` absent, i.e. `false`). -/
def DEFAULT_TEMPLATES : List StyleTemplate :=
  [tDark, tCorporate, tNeon, tBrutalist]

/-- The mutable state of the `App` component (the `useState` hooks that the
orchestration core reads and writes).  Theme and model-list state are
presentation-only and omitted. -/
structure AppState where
  files : List UploadedFile
  prompt : String
  inputHistory : List InputSnapshot
  historyIndex : Nat
  status : ProcessingStatus
  statusMessage : String
  results : List ProcessedFile
  error : Option String
  history : List HistoryItem
  templates : List StyleTemplate
deriving DecidableEq, Repr

/-- The component's initial state. -/
def initialAppState : AppState :=
  { files := []
    prompt := ""
    inputHistory := [emptySnapshot]
    historyIndex := 0
    status := ProcessingStatus.IDLE
    statusMessage := ""
    results := []
    error := none
    history := []
    templates := DEFAULT_TEMPLATES }

/-- `addToHistoryStack(newFiles, newPrompt)`: truncate `inputHistory` to
`slice(0, historyIndex + 1)`, push the new snapshot, and increment
`historyIndex`. -/
def addToHistoryStack (s : AppState) (newFiles : List UploadedFile)
    (newPrompt : String) : AppState :=
  { s with
    inputHistory := s.inputHistory.take (s.historyIndex + 1) ++ [⟨newFiles, newPrompt⟩]
    historyIndex := s.historyIndex + 1 }

/-- `handleUndo`: if `historyIndex > 0`, restore `files`/`prompt` from the
previous snapshot and decrement the index; otherwise do nothing.  (The
source also raises the transient `isUndoing` flag for 50ms; that flag is
modelled as an explicit argument of the edit handlers.)  The source indexes
`inputHistory[prevIndex]` directly; under the cursor invariant the index is
in bounds, so `getD` with a default never actually falls back. -/
def handleUndo (s : AppState) : AppState :=
  if 0 < s.historyIndex then
    let prevIndex := s.historyIndex - 1
    let prevState := s.inputHistory.getD prevIndex emptySnapshot
    { s with
      files := prevState.files
      prompt := prevState.prompt
      historyIndex := prevIndex }
  else s

/-- `handleRedo`: if `historyIndex < inputHistory.length - 1`, restore
`files`/`prompt` from the next snapshot and increment the index. -/
def handleRedo (s : AppState) : AppState :=
  if s.historyIndex < s.inputHistory.length - 1 then
    let nextIndex := s.historyIndex + 1
    let nextState := s.inputHistory.getD nextIndex emptySnapshot
    { s with
      files := nextState.files
      prompt := nextState.prompt
      historyIndex := nextIndex }
  else s

/-- `handleFilesSelected(newFiles)`: append the new uploads, clear the error,
and (unless a replay is in progress) commit the updated pair. -/
def handleFilesSelected (s : AppState) (isUndoing : Bool)
    (newFiles : List UploadedFile) : AppState :=
  let updatedFiles := s.files ++ newFiles
  let s1 := { s with files := updatedFiles, error := none }
  if isUndoing then s1 else addToHistoryStack s1 updatedFiles s1.prompt

/-- `handleRemoveFile(id)`: drop the file with the given id and (unless a
replay is in progress) commit the updated pair. -/
def handleRemoveFile (s : AppState) (isUndoing : Bool) (id : String) : AppState :=
  let updatedFiles := s.files.filter (fun f => f.id ≠ id)
  let s1 := { s with files := updatedFiles }
  if isUndoing then s1 else addToHistoryStack s1 updatedFiles s1.prompt

/-- The committed effect of `handlePromptChange`: the prompt is set
immediately and, once the 1000ms debounce window elapses with no further
edit, `addToHistoryStack(files, newPrompt)` runs.  This embeds the state
after the debounced commit has fired. -/
def commitPromptChange (s : AppState) (isUndoing : Bool)
    (newPrompt : String) : AppState :=
  let s1 := { s with prompt := newPrompt }
  if isUndoing then s1 else addToHistoryStack s1 s1.files newPrompt

/-- `handleSelectTemplate(template)`: set the prompt to the template's
prompt and commit immediately. -/
def handleSelectTemplate (s : AppState) (isUndoing : Bool)
    (t : StyleTemplate) : AppState :=
  let s1 := { s with prompt := t.prompt }
  if isUndoing then s1 else addToHistoryStack s1 s1.files t.prompt

/-- `handleLikeTemplate(id)`: toggle `isLiked` and adjust `likes` by one.
(`updateTemplates` also persists the catalog; persistence mirrors the
in-memory list and is outside the model.) -/
def handleLikeTemplate (s : AppState) (id : String) : AppState :=
  { s with
    templates := s.templates.map fun t =>
      if t.id = id then
        { t with isLiked := !t.isLiked
                 likes := if t.isLiked then t.likes - 1 else t.likes + 1 }
      else t }

/-- `handleDeleteTemplate(id)`: filter the template out by id.  Note the
source has no `isCustom` guard here; the gallery view merely hides the
delete button for built-in templates. -/
def handleDeleteTemplate (s : AppState) (id : String) : AppState :=
  { s with templates := s.templates.filter (fun t => t.id ≠ id) }

/-- `handleRenameTemplate(id, newName)`: rename the matching template.  As
with deletion, the source has no `isCustom` guard here. -/
def handleRenameTemplate (s : AppState) (id newName : String) : AppState :=
  { s with
    templates := s.templates.map fun t =>
      if t.id = id then { t with name := newName } else t }

/-- `handleSaveCurrentAsTemplate(name)` with the fresh UUID determinized. -/
def handleSaveCurrentAsTemplate (s : AppState) (newId name : String) : AppState :=
  { s with templates := s.templates ++ [⟨newId, name, s.prompt, 0, false, true⟩] }

/-- The run-history update inside `saveToHistory`:
`[newItem, ...history].slice(0, 20)` — prepend, cap at 20. -/
def appendRecord (history : List HistoryItem) (item : HistoryItem) : List HistoryItem :=
  (item :: history).take 20

/-- `saveToHistory(newResults, userPrompt)` with `crypto.randomUUID()` and
`Date.now()` determinized to parameters.  The source also writes the
updated list to `localStorage`; persistence mirrors the in-memory list. -/
def saveToHistory (s : AppState) (newId : String) (ts : Nat)
    (newResults : List ProcessedFile) (userPrompt : String) : AppState :=
  { s with history := appendRecord s.history ⟨newId, ts, userPrompt, newResults⟩ }

/-- `deleteHistoryItem(_, id)`: filter the run record out by id. -/
def deleteHistoryItem (s : AppState) (id : String) : AppState :=
  { s with history := s.history.filter (fun item => item.id ≠ id) }

/-- `reset()`: back to a fresh project; the undo history collapses to a
single initial snapshot. -/
def reset (s : AppState) : AppState :=
  { s with
    files := []
    prompt := ""
    results := []
    status := ProcessingStatus.IDLE
    error := none
    inputHistory := [emptySnapshot]
    historyIndex := 0 }

/-- The generation gateway (`generateGlobalCss` / `rewriteHtmlFile` from
`src/services/geminiService.ts`), abstracted as injectable pure stubs: a
resolved promise is `Except.ok text`, a thrown error is `Except.error msg`
(the message of the thrown `Error`).  Prompt construction, provider
dispatch and code-fence stripping happen inside these functions and are
opaque to the orchestrator. -/
structure Gateway where
  generateGlobalCss : List UploadedFile → String → AIModel → Except String String
  rewriteHtmlFile : UploadedFile → String → String → AIModel → Except String String

/-- The progress message `` `Rewriting ${file.name} (${i + 1}/${files.length})...` ``
(with `i + 1` already applied by the caller). -/
def rewritingMsg (name : String) (i n : Nat) : String :=
  "Rewriting " ++ name ++ " (" ++ toString i ++ "/" ++ toString n ++ ")..."

/-- The fallback of `err.message || "An error occurred during processing."`. -/
def genericErrorMsg : String := "An error occurred during processing."

/-- The validation message for a blank prompt. -/
def promptValidationMsg : String :=
  "Please describe how you want to restyle the website."

/-- The sequential rewrite loop of `processFiles`: for each file in upload
order, set the progress message, then await `rewriteHtmlFile`; a thrown
error aborts the loop (the error and the progress message standing at that
moment propagate); on success every rewritten document is collected in
order.  The final `String` is the `statusMessage` left behind by the loop. -/
def rewriteRun (g : Gateway) (css userPrompt : String) (model : AIModel) (total : Nat) :
    List UploadedFile → Nat → String → Except (String × String) (List ProcessedFile × String)
  | [], _, msg => Except.ok ([], msg)
  | f :: rest, i, _ =>
    let msg := rewritingMsg f.name (i + 1) total
    match g.rewriteHtmlFile f css userPrompt model with
    | Except.error e => Except.error (e, msg)
    | Except.ok newHtml =>
      match rewriteRun g css userPrompt model total rest (i + 1) msg with
      | Except.error em => Except.error em
      | Except.ok tail => Except.ok (⟨f.name, newHtml, FileType.html⟩ :: tail.1, tail.2)

/-- `processFiles` from the app component, determinized: the gateway, the
selected model, and the fresh id/timestamp used by `saveToHistory` are
parameters.  Mirrors the source line by line:

* `files.length === 0` → bare `return` (no error message is set);
* blank prompt (`!prompt.trim()`) → set the validation message and return;
* otherwise clear the error, pass through `ANALYZING` (immediately
  overwritten by `GENERATING_CSS` in the same tick) and call the gateway;
* validator findings only change the status message here — the run goes on;
* after the rewrite loop, results are set and the state becomes
  `COMPLETED`; with validator findings the warning text is put in `error`
  and nothing is persisted, otherwise `saveToHistory` runs;
* any gateway throw lands in the `catch`: the message is kept and the
  state becomes `ERROR` (results and run history are left untouched). -/
def processFiles (g : Gateway) (selectedModel : AIModel) (newId : String)
    (ts : Nat) (s : AppState) : AppState :=
  if s.files.length = 0 then s
  else if jsTrim s.prompt = "" then { s with error := some promptValidationMsg }
  else
    let s1 := { s with
      error := none
      status := ProcessingStatus.GENERATING_CSS
      statusMessage := "Generating theme with " ++ selectedModel.name ++ "..." }
    match g.generateGlobalCss s1.files s1.prompt selectedModel with
    | Except.error e =>
      { s1 with
        error := some (if e = "" then genericErrorMsg else e)
        status := ProcessingStatus.ERROR }
    | Except.ok cssContent =>
      let validationErrors := validateCss cssContent
      let s2 :=
        if validationErrors.length > 0 then
          { s1 with statusMessage :=
              "CSS Validation warning: " ++ validationErrors.headD ""
                ++ " Attempting to proceed..." }
        else s1
      let cssFile : ProcessedFile := ⟨"style.css", cssContent, FileType.css⟩
      let s3 := { s2 with status := ProcessingStatus.REWRITING_HTML }
      match rewriteRun g cssContent s3.prompt selectedModel s3.files.length
          s3.files 0 s3.statusMessage with
      | Except.error em =>
        { s3 with
          statusMessage := em.2
          error := some (if em.1 = "" then genericErrorMsg else em.1)
          status := ProcessingStatus.ERROR }
      | Except.ok res =>
        let finalResults := cssFile :: res.1
        let s4 := { s3 with
          statusMessage := res.2
          results := finalResults
          status := ProcessingStatus.COMPLETED }
        if validationErrors.length > 0 then
          { s4 with
            error :=
              some ("Processing complete, but CSS validation found issues: "
                ++ String.intercalate ", " validationErrors) }
        else
          saveToHistory s4 newId ts finalResults s4.prompt

/-- The user edits that commit a snapshot to the undo history: uploading
files, removing a file, a debounced prompt edit, selecting a template. -/
inductive CommitOp where
  | selectFiles (newFiles : List UploadedFile)
  | removeFile (id : String)
  | commitPrompt (newPrompt : String)
  | selectTemplate (t : StyleTemplate)
deriving Repr

/-- Apply one committing edit.  Commits only happen outside a replay window
(the handlers guard on `!isUndoing.current`), so `isUndoing` is `false`. -/
def applyCommit (s : AppState) : CommitOp → AppState
  | CommitOp.selectFiles nf => handleFilesSelected s false nf
  | CommitOp.removeFile id => handleRemoveFile s false id
  | CommitOp.commitPrompt p => commitPromptChange s false p
  | CommitOp.selectTemplate t => handleSelectTemplate s false t

/-- Run a sequence of committing edits from a starting state. -/
def runCommits (s : AppState) : List CommitOp → AppState
  | [] => s
  | op :: ops => runCommits (applyCommit s op) ops

/-- The undo-stack invariant: the cursor is a valid index into
`inputHistory`, and the snapshot under the cursor is the current
`(files, prompt)` pair. -/
def HistInv (s : AppState) : Prop :=
  s.historyIndex < s.inputHistory.length ∧
    s.inputHistory.getD s.historyIndex emptySnapshot = ⟨s.files, s.prompt⟩

/-- Iterate `saveToHistory`'s run-history update over a list of records,
oldest first. -/
def appendAll (h : List HistoryItem) : List HistoryItem → List HistoryItem
  | [] => h
  | r :: rs => appendAll (appendRecord h r) rs

/-- A sample upload. -/
def fileA : UploadedFile := ⟨"f1", "index.html", "<p>hello</p>"⟩

/-- A second sample upload. -/
def fileB : UploadedFile := ⟨"f2", "about.html", "<p>bye</p>"⟩

/-- The default model entry. -/
def model0 : AIModel := ⟨"gemini-2.5-flash", "Gemini 2.5 Flash", Provider.google⟩

/-- A structurally clean stylesheet: `"body {margin:0}"`. -/
def cssGood : String := "body " ++ lbrace ++ "margin:0" ++ rbrace

/-- A stylesheet with an unclosed block: `"body {margin:0"`. -/
def cssBad : String := "body " ++ lbrace ++ "margin:0"

/-- A gateway stub on which every call succeeds and the stylesheet is
structurally clean. -/
def gOk : Gateway :=
  { generateGlobalCss := fun _ _ _ => Except.ok cssGood
    rewriteHtmlFile := fun f _ _ _ => Except.ok ("rewritten-" ++ f.name) }

/-- A gateway stub on which every call succeeds but the stylesheet is
malformed (missing one closing brace). -/
def gBadCss : Gateway :=
  { generateGlobalCss := fun _ _ _ => Except.ok cssBad
    rewriteHtmlFile := fun f _ _ _ => Except.ok ("rewritten-" ++ f.name) }

/-- A gateway stub whose stylesheet call succeeds but whose rewrite call
fails on the second file. -/
def gRewriteFail : Gateway :=
  { generateGlobalCss := fun _ _ _ => Except.ok cssGood
    rewriteHtmlFile := fun f _ _ _ =>
      if f.id = "f2" then Except.error "rewrite failed" else Except.ok ("rewritten-" ++ f.name) }

/-- A ready-to-run state: one file, a non-blank prompt. -/
def sReady : AppState :=
  { initialAppState with files := [fileA], prompt := "make it pretty" }

/-- A ready-to-run state with two files. -/
def sTwo : AppState :=
  { initialAppState with files := [fileA, fileB], prompt := "make it pretty" }

/-- A state with a non-blank prompt but no files. -/
def sZeroFiles : AppState := { initialAppState with prompt := "make it pretty" }

/-- A ready-to-run state whose run-history store is already at the
20-record cap. -/
def sFull : AppState :=
  { sReady with history := List.replicate 20 ⟨"old", 0, "old prompt", []⟩ }

/-- C5: the structural validator returns a "missing 1 closing brace" finding
on `"a{b{c}"`, at least one "unmatched closing brace" finding on
`"a}b{c}}"`, exactly the "empty output" finding (no brace findings) on
`""`, and the empty finding list on `"a{b}"`. -/
theorem c5_validator_examples :
    validateCss exMissing = [missingBraceMsg 1] ∧
    extraBraceMsg ∈ validateCss exUnmatched ∧
    validateCss "" = [emptyCssMsg] ∧
    validateCss exBalanced = [] := by
  decide

/-- Truncating the right summand of an append below the truncation point is
invisible: `(a ++ b.take n).take m = (a ++ b).take m` for `m ≤ n`. -/
lemma take_append_take {α : Type} (a : List α) (b : List α) (m n : Nat) (hmn : m ≤ n) :
    (a ++ b.take n).take m = (a ++ b).take m := by
  induction a generalizing m with
  | nil => simp [List.take_take, Nat.min_eq_left hmn]
  | cons x a ih =>
    cases m with
    | zero => simp
    | succ m => simp [ih m (Nat.le_of_succ_le hmn)]

/-- Iterating the capped prepend over a non-empty batch of records yields
the reversed batch in front of the old store, truncated to 20. -/
lemma appendAll_eq (r : HistoryItem) (rs : List HistoryItem) (h : List HistoryItem) :
    appendAll h (r :: rs) = ((r :: rs).reverse ++ h).take 20 := by
  induction rs generalizing h r with
  | nil => simp [appendAll, appendRecord]
  | cons r2 rs2 ih =>
    calc appendAll h (r :: r2 :: rs2)
        = appendAll (appendRecord h r) (r2 :: rs2) := rfl
      _ = ((r2 :: rs2).reverse ++ ((r :: h).take 20)).take 20 := ih r2 (appendRecord h r)
      _ = ((r2 :: rs2).reverse ++ (r :: h)).take 20 :=
          take_append_take _ _ 20 20 (Nat.le_refl 20)
      _ = ((r :: r2 :: rs2).reverse ++ h).take 20 := by
          simp [List.reverse_cons, List.append_assoc]

/-- C6: `saveToHistory`'s store update prepends the new record and caps the
store at 20 records; from any starting store, appending 25 records one at a
time leaves exactly 20 records — the 20 most recently appended, newest
first (`rs.reverse.take 20` for the batch `rs` in append order). -/
theorem c6_append_cap (start : List HistoryItem) (rs : List HistoryItem)
    (hlen : rs.length = 25) :
    (appendAll start rs).length = 20 ∧ appendAll start rs = rs.reverse.take 20 := by
  cases rs with
  | nil => simp at hlen
  | cons r rs' =>
    have hrev : (20 : Nat) ≤ ((r :: rs').reverse).length := by
      rw [List.length_reverse, hlen]
      omega
    rw [appendAll_eq, List.take_append_of_le_length hrev]
    refine ⟨?_, rfl⟩
    rw [List.length_take, List.length_reverse, hlen]
    decide

/-- A sample run record. -/
def recX : HistoryItem := ⟨"r", 0, "p", []⟩

/-- Witness for C6 at a concrete input: 25 appends onto the empty store. -/
theorem c6_append_cap_witness :
    (List.replicate 25 recX).length = 25 ∧
    ((appendAll [] (List.replicate 25 recX)).length = 20 ∧
      appendAll [] (List.replicate 25 recX) = (List.replicate 25 recX).reverse.take 20) :=
  ⟨by decide, c6_append_cap [] (List.replicate 25 recX) (by decide)⟩

/-- C7: committing a snapshot while the cursor is not at the last index
discards every snapshot after the cursor, appends the new snapshot, and
moves the cursor to the new last index (so no redo target remains beyond
the new tail). -/
theorem c7_commit_truncates (s : AppState) (fs : List UploadedFile) (p : String)
    (h : s.historyIndex + 1 < s.inputHistory.length) :
    (addToHistoryStack s fs p).inputHistory
        = s.inputHistory.take (s.historyIndex + 1) ++ [⟨fs, p⟩] ∧
    (addToHistoryStack s fs p).historyIndex = s.historyIndex + 1 ∧
    (addToHistoryStack s fs p).historyIndex + 1
        = (addToHistoryStack s fs p).inputHistory.length := by
  refine ⟨rfl, rfl, ?_⟩
  simp [addToHistoryStack]
  omega

/-- A snapshot with one file. -/
def snapA : InputSnapshot := ⟨[fileA], "a"⟩

/-- A snapshot with two files. -/
def snapB : InputSnapshot := ⟨[fileA, fileB], "b"⟩

/-- A state whose undo cursor sits two entries behind the tail. -/
def sMidUndo : AppState :=
  { initialAppState with
    inputHistory := [emptySnapshot, snapA, snapB]
    historyIndex := 0 }

/-- Witness for C7 at a concrete mid-history state. -/
theorem c7_commit_truncates_witness :
    sMidUndo.historyIndex + 1 < sMidUndo.inputHistory.length ∧
    ((addToHistoryStack sMidUndo [fileB] "np").inputHistory
        = sMidUndo.inputHistory.take (sMidUndo.historyIndex + 1) ++ [⟨[fileB], "np"⟩] ∧
      (addToHistoryStack sMidUndo [fileB] "np").historyIndex = sMidUndo.historyIndex + 1 ∧
      (addToHistoryStack sMidUndo [fileB] "np").historyIndex + 1
        = (addToHistoryStack sMidUndo [fileB] "np").inputHistory.length) :=
  ⟨by decide, c7_commit_truncates sMidUndo [fileB] "np" (by decide)⟩

/-- C9 fails on the code: deleting or renaming a built-in template (one with
`isCustom` false) does change the catalog — `handleDeleteTemplate` and
`handleRenameTemplate` contain no `isCustom` guard.  Concretely, the
built-in `t1` of the initial catalog is removed by `delete("t1")` and
renamed by `rename("t1", "Renamed")`. -/
theorem c9_counterexample :
    (tDark ∈ initialAppState.templates ∧ tDark.id = "t1" ∧ tDark.isCustom = false) ∧
    (handleDeleteTemplate initialAppState "t1").templates ≠ initialAppState.templates ∧
    (handleRenameTemplate initialAppState "t1" "Renamed").templates
        ≠ initialAppState.templates := by
  decide

/-- C9 amended: `delete(id)` removes every template with the matching id and
`rename(id, name)` renames every template with the matching id, regardless
of `isUserAuthored` — the operations themselves enforce no permission; only
the gallery view hides the buttons for built-ins. -/
theorem c9_amended_no_permission_guard (s : AppState) (t : StyleTemplate)
    (nm : String) (ht : t ∈ s.templates) :
    (∀ u ∈ (handleDeleteTemplate s t.id).templates, u.id ≠ t.id) ∧
    { t with name := nm } ∈ (handleRenameTemplate s t.id nm).templates := by
  constructor
  · intro u hu
    simp only [handleDeleteTemplate] at hu
    have hp := List.of_mem_filter hu
    simpa using hp
  · simp only [handleRenameTemplate]
    have hmem := List.mem_map_of_mem
      (fun u => if u.id = t.id then { u with name := nm } else u) ht
    simpa using hmem

/-- Witness for the amended C9 at the built-in template `t1`. -/
theorem c9_amended_witness :
    tDark ∈ initialAppState.templates ∧
    ((∀ u ∈ (handleDeleteTemplate initialAppState tDark.id).templates, u.id ≠ tDark.id) ∧
      { tDark with name := "Renamed" }
        ∈ (handleRenameTemplate initialAppState tDark.id "Renamed").templates) :=
  ⟨by decide, c9_amended_no_permission_guard initialAppState tDark "Renamed" (by decide)⟩

/-- C10: removing an id that occurs in no current file leaves the file set
unchanged but still commits a snapshot identical to the current
`(files, prompt)` pair, advancing the cursor by one (outside a replay
window, where the handler suppresses the commit). -/
theorem c10_remove_absent_still_commits (s : AppState) (id : String)
    (h : ∀ f ∈ s.files, f.id ≠ id) :
    (handleRemoveFile s false id).files = s.files ∧
    (handleRemoveFile s false id).inputHistory
        = s.inputHistory.take (s.historyIndex + 1) ++ [⟨s.files, s.prompt⟩] ∧
    (handleRemoveFile s false id).historyIndex = s.historyIndex + 1 := by
  have hfilter : s.files.filter (fun f => f.id ≠ id) = s.files :=
    List.filter_eq_self.mpr (fun f hf => by simpa using h f hf)
  simp [handleRemoveFile, addToHistoryStack, hfilter]
  exact fun a ha => h a ha

/-- Witness for C10: removing an absent id from a one-file state. -/
theorem c10_remove_absent_witness :
    (∀ f ∈ sReady.files, f.id ≠ "nope") ∧
    ((handleRemoveFile sReady false "nope").files = sReady.files ∧
      (handleRemoveFile sReady false "nope").inputHistory
        = sReady.inputHistory.take (sReady.historyIndex + 1) ++ [⟨sReady.files, sReady.prompt⟩] ∧
      (handleRemoveFile sReady false "nope").historyIndex = sReady.historyIndex + 1) :=
  ⟨by decide, c10_remove_absent_still_commits sReady "nope" (by decide)⟩

/-- Reading a snoc list at the length of its prefix yields the appended
element. -/
lemma getD_append_length (l : List InputSnapshot) (x d : InputSnapshot) :
    (l ++ [x]).getD l.length d = x := by
  rw [List.getD_append_right l [x] d l.length (Nat.le_refl _)]
  simp [List.getD]

/-- Any commit whose arguments are the state's own `(files, prompt)` pair
re-establishes the undo-stack invariant (only in-bounds cursor needed). -/
lemma histInv_commit (s : AppState) (hlt : s.historyIndex < s.inputHistory.length) :
    HistInv (addToHistoryStack s s.files s.prompt) := by
  constructor
  · simp [addToHistoryStack]
    omega
  · show (s.inputHistory.take (s.historyIndex + 1)
          ++ [InputSnapshot.mk s.files s.prompt]).getD
        (s.historyIndex + 1) emptySnapshot = InputSnapshot.mk s.files s.prompt
    have hlen : (s.inputHistory.take (s.historyIndex + 1)).length = s.historyIndex + 1 := by
      simp [List.length_take]
      omega
    have hget := getD_append_length (s.inputHistory.take (s.historyIndex + 1))
      (InputSnapshot.mk s.files s.prompt) emptySnapshot
    rwa [hlen] at hget

/-- Every committing edit preserves the undo-stack invariant. -/
lemma histInv_applyCommit (s : AppState) (h : HistInv s) (op : CommitOp) :
    HistInv (applyCommit s op) := by
  have hlt := h.1
  cases op with
  | selectFiles nf =>
    exact histInv_commit { s with files := s.files ++ nf, error := none } hlt
  | removeFile id =>
    exact histInv_commit { s with files := s.files.filter (fun f => f.id ≠ id) } hlt
  | commitPrompt p =>
    exact histInv_commit { s with prompt := p } hlt
  | selectTemplate t =>
    exact histInv_commit { s with prompt := t.prompt } hlt

/-- The undo-stack invariant holds along any run of committing edits. -/
lemma histInv_runCommits (ops : List CommitOp) (s : AppState) (h : HistInv s) :
    HistInv (runCommits s ops) := by
  induction ops generalizing s with
  | nil => exact h
  | cons op ops ih => exact ih _ (histInv_applyCommit s h op)

/-- The initial state satisfies the undo-stack invariant. -/
lemma histInv_initial : HistInv initialAppState := ⟨by decide, by decide⟩

/-- Under the undo-stack invariant, `undo` followed by `redo` restores the
state exactly. -/
lemma undo_redo_restore (s : AppState) (hinv : HistInv s)
    (h : 0 < s.historyIndex) : handleRedo (handleUndo s) = s := by
  obtain ⟨hlt, hcur⟩ := hinv
  rcases s with ⟨f, p, H, idx, st, sm, rs, er, rh, tp⟩
  have hlt' : idx < H.length := hlt
  have h' : 0 < idx := h
  have hcur' : H.getD idx emptySnapshot = InputSnapshot.mk f p := hcur
  have hu : handleUndo (AppState.mk f p H idx st sm rs er rh tp)
      = AppState.mk (H.getD (idx - 1) emptySnapshot).files
          (H.getD (idx - 1) emptySnapshot).prompt H (idx - 1) st sm rs er rh tp := by
    simp only [handleUndo]
    rw [if_pos h']
  have hcond : idx - 1 < H.length - 1 := by omega
  have hr : handleRedo (AppState.mk (H.getD (idx - 1) emptySnapshot).files
        (H.getD (idx - 1) emptySnapshot).prompt H (idx - 1) st sm rs er rh tp)
      = AppState.mk (H.getD (idx - 1 + 1) emptySnapshot).files
          (H.getD (idx - 1 + 1) emptySnapshot).prompt H (idx - 1 + 1) st sm rs er rh tp := by
    simp only [handleRedo]
    rw [if_pos hcond]
  have hidx : idx - 1 + 1 = idx := by omega
  rw [hu, hr, hidx, hcur']

/-- C8: from any state reachable by a sequence of commits, when undo is
enabled (cursor positive), `undo` immediately followed by `redo` restores
the state exactly — same snapshot sequence, same cursor, same current
`(files, prompt)` pair — and that pair equals the pre-undo snapshot under
the cursor. -/
theorem c8_undo_redo_roundtrip (ops : List CommitOp)
    (h : 0 < (runCommits initialAppState ops).historyIndex) :
    handleRedo (handleUndo (runCommits initialAppState ops))
        = runCommits initialAppState ops ∧
    (runCommits initialAppState ops).inputHistory.getD
        (runCommits initialAppState ops).historyIndex emptySnapshot
      = ⟨(runCommits initialAppState ops).files,
         (runCommits initialAppState ops).prompt⟩ := by
  have hinv := histInv_runCommits ops initialAppState histInv_initial
  exact ⟨undo_redo_restore _ hinv h, hinv.2⟩

/-- Witness for C8 after one concrete committed edit. -/
theorem c8_undo_redo_witness :
    0 < (runCommits initialAppState [CommitOp.commitPrompt "x"]).historyIndex ∧
    (handleRedo (handleUndo (runCommits initialAppState [CommitOp.commitPrompt "x"]))
        = runCommits initialAppState [CommitOp.commitPrompt "x"] ∧
      (runCommits initialAppState [CommitOp.commitPrompt "x"]).inputHistory.getD
          (runCommits initialAppState [CommitOp.commitPrompt "x"]).historyIndex emptySnapshot
        = ⟨(runCommits initialAppState [CommitOp.commitPrompt "x"]).files,
           (runCommits initialAppState [CommitOp.commitPrompt "x"]).prompt⟩) :=
  ⟨by decide, c8_undo_redo_roundtrip [CommitOp.commitPrompt "x"] (by decide)⟩

/-- If the gateway rewrites every file in the batch successfully, the
rewrite loop returns one `html` artifact per file, in batch order, named
after the file. -/
lemma rewriteRun_ok (g : Gateway) (css p : String) (mo : AIModel)
    (out : UploadedFile → String) (total : Nat) :
    ∀ (fs : List UploadedFile),
      (∀ f ∈ fs, g.rewriteHtmlFile f css p mo = Except.ok (out f)) →
    ∀ (i : Nat) (msg : String),
      ∃ m, rewriteRun g css p mo total fs i msg
        = Except.ok (fs.map (fun f => ⟨f.name, out f, FileType.html⟩), m)
  | [], _, _, msg => ⟨msg, rfl⟩
  | f :: rest, h, i, msg => by
    have hf := h f (by simp)
    obtain ⟨m, hm⟩ := rewriteRun_ok g css p mo out total rest
      (fun x hx => h x (List.mem_cons_of_mem f hx)) (i + 1)
      (rewritingMsg f.name (i + 1) total)
    refine ⟨m, ?_⟩
    simp only [rewriteRun, hf, hm, List.map_cons]

/-- If the gateway rewrites an initial segment successfully and then fails
on the next file, the rewrite loop propagates exactly that error. -/
lemma rewriteRun_error (g : Gateway) (css p : String) (mo : AIModel)
    (out : UploadedFile → String) (fl : UploadedFile) (fs2 : List UploadedFile)
    (e : String) (total : Nat)
    (hfail : g.rewriteHtmlFile fl css p mo = Except.error e) :
    ∀ (fs1 : List UploadedFile),
      (∀ x ∈ fs1, g.rewriteHtmlFile x css p mo = Except.ok (out x)) →
    ∀ (i : Nat) (msg : String),
      ∃ m, rewriteRun g css p mo total (fs1 ++ fl :: fs2) i msg = Except.error (e, m)
  | [], _, i, _ => by
    refine ⟨rewritingMsg fl.name (i + 1) total, ?_⟩
    simp only [List.nil_append, rewriteRun, hfail]
  | x :: rest, hok, i, msg => by
    have hx := hok x (by simp)
    obtain ⟨m, hm⟩ := rewriteRun_error g css p mo out fl fs2 e total hfail rest
      (fun y hy => hok y (List.mem_cons_of_mem x hy)) (i + 1)
      (rewritingMsg x.name (i + 1) total)
    refine ⟨m, ?_⟩
    simp only [List.cons_append, rewriteRun, hx, List.append_eq, hm]

/-- C1: on a run where the stylesheet call succeeds, every rewrite call
succeeds, and the validator reports findings, the pipeline still reaches
`COMPLETED`, the warnings are surfaced to the caller in the error banner,
and the run-history store is left exactly as it was (no record is
persisted). -/
theorem c1_warnings_complete_without_persist (g : Gateway) (mo : AIModel)
    (newId : String) (ts : Nat) (s : AppState) (css : String)
    (out : UploadedFile → String)
    (hf : s.files ≠ []) (hp : jsTrim s.prompt ≠ "")
    (hcss : g.generateGlobalCss s.files s.prompt mo = Except.ok css)
    (hval : validateCss css ≠ [])
    (hrw : ∀ f ∈ s.files, g.rewriteHtmlFile f css s.prompt mo = Except.ok (out f)) :
    (processFiles g mo newId ts s).status = ProcessingStatus.COMPLETED ∧
    (processFiles g mo newId ts s).error
      = some ("Processing complete, but CSS validation found issues: "
          ++ String.intercalate ", " (validateCss css)) ∧
    (processFiles g mo newId ts s).history = s.history := by
  have h0 : ¬ s.files.length = 0 := by
    simpa [List.length_eq_zero] using hf
  have hvl : 0 < (validateCss css).length := List.length_pos.mpr hval
  obtain ⟨m, hm⟩ := rewriteRun_ok g css s.prompt mo out s.files.length s.files hrw 0
    ("CSS Validation warning: " ++ (validateCss css).headD "" ++ " Attempting to proceed...")
  simp only [processFiles, if_neg h0, if_neg hp, hcss]
  simp only [if_pos hvl, hm]
  refine ⟨?_, ?_, ?_⟩ <;> trivial

/-- Witness for C1: one file, a gateway whose stylesheet misses a closing
brace, all calls succeeding. -/
theorem c1_warnings_witness :
    sReady.files ≠ [] ∧ jsTrim sReady.prompt ≠ "" ∧
    gBadCss.generateGlobalCss sReady.files sReady.prompt model0 = Except.ok cssBad ∧
    validateCss cssBad ≠ [] ∧
    (∀ f ∈ sReady.files, gBadCss.rewriteHtmlFile f cssBad sReady.prompt model0
        = Except.ok ("rewritten-" ++ f.name)) ∧
    ((processFiles gBadCss model0 "id1" 5 sReady).status = ProcessingStatus.COMPLETED ∧
      (processFiles gBadCss model0 "id1" 5 sReady).error
        = some ("Processing complete, but CSS validation found issues: "
            ++ String.intercalate ", " (validateCss cssBad)) ∧
      (processFiles gBadCss model0 "id1" 5 sReady).history = sReady.history) :=
  ⟨by decide, by decide, rfl, by decide, fun _ _ => rfl,
    c1_warnings_complete_without_persist gBadCss model0 "id1" 5 sReady cssBad
      (fun f => "rewritten-" ++ f.name) (by decide) (by decide) rfl (by decide)
      (fun _ _ => rfl)⟩

/-- "Some gateway call of the run fails with message `e`": either the
stylesheet call throws, or it succeeds and — after zero or more successful
rewrites — the rewrite of the next file throws. -/
def GatewayFails (g : Gateway) (files : List UploadedFile) (p : String)
    (mo : AIModel) (e : String) : Prop :=
  g.generateGlobalCss files p mo = Except.error e ∨
  ∃ (css : String) (out : UploadedFile → String) (fs1 : List UploadedFile)
    (fl : UploadedFile) (fs2 : List UploadedFile),
    g.generateGlobalCss files p mo = Except.ok css ∧
    files = fs1 ++ fl :: fs2 ∧
    (∀ x ∈ fs1, g.rewriteHtmlFile x css p mo = Except.ok (out x)) ∧
    g.rewriteHtmlFile fl css p mo = Except.error e

/-- C2: on a validly started run, any gateway failure — the stylesheet call
or any document rewrite, including one after earlier successful rewrites —
ends the pipeline in `ERROR` with the triggering message retained (the
source substitutes a generic message only for an empty one), appends no
record to the run-history store, and publishes no artifact of the attempt:
`results` keeps its pre-run value. -/
theorem c2_gateway_failure_aborts (g : Gateway) (mo : AIModel) (newId : String)
    (ts : Nat) (s : AppState) (e : String)
    (hf : s.files ≠ []) (hp : jsTrim s.prompt ≠ "")
    (h : GatewayFails g s.files s.prompt mo e) :
    (processFiles g mo newId ts s).status = ProcessingStatus.ERROR ∧
    (processFiles g mo newId ts s).error
        = some (if e = "" then genericErrorMsg else e) ∧
    (processFiles g mo newId ts s).history = s.history ∧
    (processFiles g mo newId ts s).results = s.results := by
  have h0 : ¬ s.files.length = 0 := by
    simpa [List.length_eq_zero] using hf
  rcases h with hgen | ⟨css, out, fs1, fl, fs2, hcss, hsplit, hok, hfail⟩
  · simp only [processFiles, if_neg h0, if_neg hp, hgen]
    refine ⟨?_, ?_, ?_, ?_⟩ <;> trivial
  · simp only [processFiles, if_neg h0, if_neg hp, hcss]
    rw [hsplit]
    by_cases hvl : 0 < (validateCss css).length
    · obtain ⟨m, hm⟩ := rewriteRun_error g css s.prompt mo out fl fs2 e
        (fs1 ++ fl :: fs2).length hfail fs1 hok 0
        ("CSS Validation warning: " ++ (validateCss css).headD ""
          ++ " Attempting to proceed...")
      simp only [if_pos hvl, hm]
      refine ⟨?_, ?_, ?_, ?_⟩ <;> trivial
    · obtain ⟨m, hm⟩ := rewriteRun_error g css s.prompt mo out fl fs2 e
        (fs1 ++ fl :: fs2).length hfail fs1 hok 0
        ("Generating theme with " ++ mo.name ++ "...")
      simp only [if_neg hvl, hm]
      refine ⟨?_, ?_, ?_, ?_⟩ <;> trivial

/-- Witness for C2 realizing the spec's scenario: two files, the stylesheet
call succeeds, the second document's rewrite fails. -/
theorem c2_gateway_failure_witness :
    sTwo.files ≠ [] ∧ jsTrim sTwo.prompt ≠ "" ∧
    GatewayFails gRewriteFail sTwo.files sTwo.prompt model0 "rewrite failed" ∧
    ((processFiles gRewriteFail model0 "id2" 7 sTwo).status = ProcessingStatus.ERROR ∧
      (processFiles gRewriteFail model0 "id2" 7 sTwo).error
        = some (if "rewrite failed" = "" then genericErrorMsg else "rewrite failed") ∧
      (processFiles gRewriteFail model0 "id2" 7 sTwo).history = sTwo.history ∧
      (processFiles gRewriteFail model0 "id2" 7 sTwo).results = sTwo.results) :=
  ⟨by decide, by decide,
    Or.inr ⟨cssGood, fun f => "rewritten-" ++ f.name, [fileA], fileB, [], rfl, rfl,
      fun x hx => by
        simp only [List.mem_singleton] at hx
        subst hx
        rfl,
      rfl⟩,
    c2_gateway_failure_aborts gRewriteFail model0 "id2" 7 sTwo "rewrite failed"
      (by decide) (by decide)
      (Or.inr ⟨cssGood, fun f => "rewritten-" ++ f.name, [fileA], fileB, [], rfl, rfl,
        fun x hx => by
          simp only [List.mem_singleton] at hx
          subst hx
          rfl,
        rfl⟩)⟩

/-- C3 fails on the code in its zero-files half: invoking the pipeline with
zero files returns with the state completely unchanged — in particular no
validation error message is surfaced (`error` stays `none`), although the
claim promises one.  (The blank-prompt half does surface a message; see the
amended theorem.) -/
theorem c3_counterexample :
    processFiles gOk model0 "id3" 0 sZeroFiles = sZeroFiles ∧
    sZeroFiles.error = none ∧
    sZeroFiles.status = ProcessingStatus.IDLE := by
  refine ⟨?_, rfl, rfl⟩
  rfl

/-- C3 amended: with zero files the pipeline returns silently — the whole
state, the error field included, is unchanged, and since the result does
not depend on the gateway, no gateway call is made; with at least one file
and a blank prompt, the validation message is surfaced in `error` and
nothing else changes (the status field keeps its value, so `ANALYZING` is
never entered, and again no gateway call is made). -/
theorem c3_amended_validation (g : Gateway) (mo : AIModel) (newId : String)
    (ts : Nat) (s : AppState) :
    (s.files = [] → processFiles g mo newId ts s = s) ∧
    (s.files ≠ [] → jsTrim s.prompt = "" →
      processFiles g mo newId ts s = { s with error := some promptValidationMsg }) := by
  constructor
  · intro h
    simp [processFiles, h]
  · intro hf hp
    have h0 : ¬ s.files.length = 0 := by
      simpa [List.length_eq_zero] using hf
    simp [processFiles, h0, hp]

/-- Witness for the amended C3: the zero-files branch at a concrete state,
and the blank-prompt branch at a concrete one-file state. -/
theorem c3_amended_validation_witness :
    (sZeroFiles.files = [] ∧ processFiles gOk model0 "id3" 1 sZeroFiles = sZeroFiles) ∧
    (({ sReady with prompt := "   " } : AppState).files ≠ [] ∧
      jsTrim ({ sReady with prompt := "   " } : AppState).prompt = "" ∧
      processFiles gOk model0 "id3" 1 { sReady with prompt := "   " }
        = { ({ sReady with prompt := "   " } : AppState) with
            error := some promptValidationMsg }) :=
  ⟨⟨rfl, (c3_amended_validation gOk model0 "id3" 1 sZeroFiles).1 rfl⟩,
    ⟨by decide, by decide,
      (c3_amended_validation gOk model0 "id3" 1 { sReady with prompt := "   " }).2
        (by decide) (by decide)⟩⟩

/-- C4 fails on the code at the 20-record cap: on a fully successful,
finding-free run starting from a store holding 20 records, the store does
not grow by one — `[newItem, ...history].slice(0, 20)` keeps the length at
20 (the oldest record is evicted), while the claim asserts growth by
exactly one record for every such run. -/
theorem c4_counterexample :
    sFull.history.length = 20 ∧
    validateCss cssGood = [] ∧
    (processFiles gOk model0 "newid" 1 sFull).status = ProcessingStatus.COMPLETED ∧
    (processFiles gOk model0 "newid" 1 sFull).history.length = 20 := by
  refine ⟨by decide, by decide, by decide, by decide⟩

/-- C4 amended: on a run where every gateway call succeeds and the
validator returns no findings, the artifact sequence is exactly the
stylesheet first followed by one rewritten document per input file in
input order, and the store gains that run's record (id, timestamp, prompt,
artifacts) at the front, capped at 20 — so its length grows by exactly one
whenever the store was below the 20-record cap (at the cap the oldest
record is evicted instead). -/
theorem c4_amended_success_persists (g : Gateway) (mo : AIModel)
    (newId : String) (ts : Nat) (s : AppState) (css : String)
    (out : UploadedFile → String)
    (hf : s.files ≠ []) (hp : jsTrim s.prompt ≠ "")
    (hcss : g.generateGlobalCss s.files s.prompt mo = Except.ok css)
    (hval : validateCss css = [])
    (hrw : ∀ f ∈ s.files, g.rewriteHtmlFile f css s.prompt mo = Except.ok (out f)) :
    (processFiles g mo newId ts s).status = ProcessingStatus.COMPLETED ∧
    (processFiles g mo newId ts s).results
        = ⟨"style.css", css, FileType.css⟩
            :: s.files.map (fun f => ⟨f.name, out f, FileType.html⟩) ∧
    (processFiles g mo newId ts s).history
        = appendRecord s.history
            ⟨newId, ts, s.prompt,
              ⟨"style.css", css, FileType.css⟩
                :: s.files.map (fun f => ⟨f.name, out f, FileType.html⟩)⟩ ∧
    (s.history.length < 20 →
      (processFiles g mo newId ts s).history.length = s.history.length + 1) := by
  have h0 : ¬ s.files.length = 0 := by
    simpa [List.length_eq_zero] using hf
  have hvl : ¬ 0 < (validateCss css).length := by
    simp [hval]
  obtain ⟨m, hm⟩ := rewriteRun_ok g css s.prompt mo out s.files.length s.files hrw 0
    ("Generating theme with " ++ mo.name ++ "...")
  simp only [processFiles, if_neg h0, if_neg hp, hcss]
  simp only [if_neg hvl, hm]
  refine ⟨by trivial, by trivial, by trivial, ?_⟩
  intro hlt
  show (appendRecord s.history _).length = s.history.length + 1
  simp only [appendRecord, List.length_take, List.length_cons]
  omega

/-- Witness for the amended C4: one file, clean stylesheet, empty store. -/
theorem c4_amended_success_witness :
    sReady.files ≠ [] ∧ jsTrim sReady.prompt ≠ "" ∧
    gOk.generateGlobalCss sReady.files sReady.prompt model0 = Except.ok cssGood ∧
    validateCss cssGood = [] ∧
    (∀ f ∈ sReady.files, gOk.rewriteHtmlFile f cssGood sReady.prompt model0
        = Except.ok ("rewritten-" ++ f.name)) ∧
    ((processFiles gOk model0 "id4" 9 sReady).status = ProcessingStatus.COMPLETED ∧
      (processFiles gOk model0 "id4" 9 sReady).results
        = ⟨"style.css", cssGood, FileType.css⟩
            :: sReady.files.map (fun f => ⟨f.name, "rewritten-" ++ f.name, FileType.html⟩) ∧
      (processFiles gOk model0 "id4" 9 sReady).history
        = appendRecord sReady.history
            ⟨"id4", 9, sReady.prompt,
              ⟨"style.css", cssGood, FileType.css⟩
                :: sReady.files.map (fun f => ⟨f.name, "rewritten-" ++ f.name, FileType.html⟩)⟩ ∧
      (sReady.history.length < 20 →
        (processFiles gOk model0 "id4" 9 sReady).history.length
          = sReady.history.length + 1)) :=
  ⟨by decide, by decide, rfl, by decide, fun _ _ => rfl,
    c4_amended_success_persists gOk model0 "id4" 9 sReady cssGood
      (fun f => "rewritten-" ++ f.name) (by decide) (by decide) rfl (by decide)
      (fun _ _ => rfl)⟩
